import Mathlib

/-!
Verification development for the AIGazou backend (`src/app.py`).

The program is a Flask application with one pipeline route `/crawl`:
it crawls images for a keyword into a session directory, counts persons
in each downloaded image with a YOLO model, keeps the images whose count
lies in the hardcoded closed range `[MIN_PERSONS, MAX_PERSONS] = [3, 15]`,
deletes the rest from disk, zips the survivors, and returns a JSON payload
with a download URL served by the `/download/<filename>` route.

Shallow embedding choices:
- The external detector (the YOLO model) is abstracted as a Boolean flag
  `modelLoaded` (the Python code checks `model is None`) together with an
  environment `env : String → AnalysisResult` giving, for each image path,
  either the number of detected persons or the fact that analysis raised
  an exception (`model(image_path)` throwing, caught by the bare
  `except` in `count_persons_in_image`).
- The external crawler (icrawler) only populates the session directory;
  the pipeline then enumerates `image_files = os.listdir(save_path)`.
  We take that enumerated list as an input of the embedded `crawl`.
- Filesystem effects are recorded explicitly: `deletedFiles` records the
  `os.remove` calls in order, `archive` records the zip file written
  (its name, its path, and its entries as `(sourcePath, arcname)` pairs
  exactly as passed to `zipf.write`).
- The JSON responses built with `jsonify` are recorded with their exact
  key lists (`payloadKeys`, in dictionary order from the source) plus the
  typed values the claims are about.
-/

namespace AIGazou

/-- Outcome of one YOLO analysis attempt on one image path: either a
number of detected persons, or an exception raised during analysis
(e.g. an unsupported image format, per the comment in the source). -/
inductive AnalysisResult where
  | ok (personCount : Nat)
  | err
deriving DecidableEq

/-- `DOWNLOAD_FOLDER = 'downloads'` from the source. -/
def DOWNLOAD_FOLDER : String := "downloads"

/-- `ZIP_FOLDER = 'zips'` from the source. -/
def ZIP_FOLDER : String := "zips"

/-- `os.path.join` for the two-argument uses in the source. -/
def pathJoin (a b : String) : String := a ++ "/" ++ b

/-- `count_persons_in_image(image_path)` from `src/app.py` lines 44-72:
returns 0 when `model is None`; otherwise runs the model, and a bare
`except` maps any analysis exception to 0. -/
def count_persons_in_image (modelLoaded : Bool) (env : String → AnalysisResult)
    (image_path : String) : Nat :=
  if modelLoaded then
    match env image_path with
    | AnalysisResult.ok n => n
    | AnalysisResult.err => 0
  else 0

/-- `MIN_PERSONS = 3`, hardcoded in `crawl` (line 92). -/
def MIN_PERSONS : Nat := 3

/-- `MAX_PERSONS = 15`, hardcoded in `crawl` (line 93). -/
def MAX_PERSONS : Nat := 15

/-- The filtering loop of `crawl` (lines 124-135): for each filename, count
persons; if `MIN_PERSONS <= person_count <= MAX_PERSONS` append to
`valid_images`, else `os.remove` the file. Returns
`(valid_images, removed_files)`, both in traversal order. -/
def filterLoop (modelLoaded : Bool) (env : String → AnalysisResult) :
    List String → List String × List String
  | [] => ([], [])
  | f :: rest =>
    if MIN_PERSONS ≤ count_persons_in_image modelLoaded env f ∧
        count_persons_in_image modelLoaded env f ≤ MAX_PERSONS then
      (f :: (filterLoop modelLoaded env rest).1, (filterLoop modelLoaded env rest).2)
    else
      ((filterLoop modelLoaded env rest).1, f :: (filterLoop modelLoaded env rest).2)

/-- The request JSON of the `/crawl` route. The source reads only
`keyword` and `max_num` (lines 88-89); `min_persons` and `max_persons`
appear in the spec input contract but are modelled here to show the code
never reads them. -/
structure CrawlRequest where
  keyword : Option String
  max_num : Nat
  min_persons : Option Nat
  max_persons : Option Nat
deriving DecidableEq

/-- Python truthiness check `if not keyword` (line 95): missing key or
empty string. -/
def keywordMissing : Option String → Bool
  | none => true
  | some s => s.isEmpty

/-- `keyword.replace(' ', '_')` from line 149. -/
def pyReplaceSpace (s : String) : String :=
  String.mk (s.data.map fun c => if c = ' ' then '_' else c)

/-- `zip_filename = f"{session_id}_{keyword.replace(' ', '_')}.zip"` (line 149). -/
def zipFilename (session_id keyword : String) : String :=
  session_id ++ "_" ++ pyReplaceSpace keyword ++ ".zip"

/-- `save_path = os.path.join(DOWNLOAD_FOLDER, session_id)` (line 101). -/
def savePath (session_id : String) : String := pathJoin DOWNLOAD_FOLDER session_id

/-- One `zipf.write(os.path.join(save_path, image_file), arcname=image_file)`
call (line 154): the source path read and the name stored in the archive. -/
structure ZipEntry where
  sourcePath : String
  arcname : String
deriving DecidableEq

/-- The zip archive written by `crawl` (lines 152-154). -/
structure Archive where
  name : String
  path : String
  entries : List ZipEntry
deriving DecidableEq

/-- The entries written into the zip: one per element of `valid_images`,
in order, with `arcname` the bare filename (line 153-154). -/
def zipEntriesOf (session_id : String) (valid_images : List String) : List ZipEntry :=
  valid_images.map fun f => ZipEntry.mk (pathJoin (savePath session_id) f) f

/-- The observable outcome of one `/crawl` invocation: the HTTP status,
the JSON payload keys in source order, the typed payload values, and the
filesystem effects (files removed, archive written). -/
structure CrawlOutcome where
  httpStatus : Nat
  payloadKeys : List String
  status : String
  message : String
  downloadUrl : Option String
  keptFiles : List String
  deletedFiles : List String
  archive : Option Archive
deriving DecidableEq

/-- Message of line 144 (no image matched the condition). -/
def messageNoValid (total : Nat) : String :=
  toString total ++ "枚収集しましたが、条件（" ++ toString MIN_PERSONS ++ "〜"
    ++ toString MAX_PERSONS ++ "人）に合う画像が見つかりませんでした。"

/-- Message of line 161 (success with kept images). -/
def messageSuccess (total kept : Nat) : String :=
  toString total ++ "枚中 " ++ toString kept
    ++ "枚の画像を収集しました。下のリンクからダウンロードしてください。"

/-- The `/crawl` route handler (lines 85-166), abstracting acquisition:
`image_files` is the directory listing taken at line 121 after the crawler
ran. Validation failure returns the 400 payload of line 96; otherwise the
filter loop runs, and either the zero-result payload (lines 141-146) or
the zip is written (lines 148-154) and the success payload with
`download_url = '/download/' + zip_filename` (lines 156-163) is returned. -/
def crawl (modelLoaded : Bool) (env : String → AnalysisResult)
    (session_id : String) (req : CrawlRequest) (image_files : List String) : CrawlOutcome :=
  if keywordMissing req.keyword then
    CrawlOutcome.mk 400 ["status", "message"] "error"
      "キーワードが入力されていません。" none [] [] none
  else
    if ((filterLoop modelLoaded env image_files).1).isEmpty then
      CrawlOutcome.mk 200 ["status", "message", "downloadUrl"] "success"
        (messageNoValid image_files.length) none
        (filterLoop modelLoaded env image_files).1
        (filterLoop modelLoaded env image_files).2 none
    else
      CrawlOutcome.mk 200 ["status", "message", "downloadUrl"] "success"
        (messageSuccess image_files.length (filterLoop modelLoaded env image_files).1.length)
        (some ("/download/" ++ zipFilename session_id (req.keyword.getD "")))
        (filterLoop modelLoaded env image_files).1
        (filterLoop modelLoaded env image_files).2
        (some (Archive.mk (zipFilename session_id (req.keyword.getD ""))
          (pathJoin ZIP_FOLDER (zipFilename session_id (req.keyword.getD "")))
          (zipEntriesOf session_id (filterLoop modelLoaded env image_files).1)))

/-- Response of the `/download/<filename>` route (lines 169-171):
`send_from_directory(ZIP_FOLDER, filename, as_attachment=True)`. -/
structure DownloadResponse where
  directory : String
  filename : String
  asAttachment : Bool
deriving DecidableEq

/-- The `download_zip` handler (lines 169-171). Note the registered route
is `/download/<filename>`, not `/download_zip/...`; `download_zip` is only
the Python function name. -/
def download_zip (filename : String) : DownloadResponse :=
  DownloadResponse.mk ZIP_FOLDER filename true

/-! ### Event traces, for the ordering claim

The filter loop interleaves detection and deletion per file: the trace
records, in program order, each count computation, each `os.remove`, and
the start of zip packaging. -/

/-- One observable step of the pipeline. -/
inductive Event where
  | countEv (filename : String) (n : Nat)
  | deleteEv (filename : String)
  | packageEv
deriving DecidableEq

/-- Program-order event trace of the filtering loop (lines 124-135):
for each file first the count, then, if out of range, its removal. -/
def filterTrace (modelLoaded : Bool) (env : String → AnalysisResult) :
    List String → List Event
  | [] => []
  | f :: rest =>
    if MIN_PERSONS ≤ count_persons_in_image modelLoaded env f ∧
        count_persons_in_image modelLoaded env f ≤ MAX_PERSONS then
      Event.countEv f (count_persons_in_image modelLoaded env f)
        :: filterTrace modelLoaded env rest
    else
      Event.countEv f (count_persons_in_image modelLoaded env f)
        :: Event.deleteEv f :: filterTrace modelLoaded env rest

/-- Program-order event trace of one validated run: the filter loop, then
packaging iff `valid_images` is nonempty (lines 141 and 152). -/
def crawlTrace (modelLoaded : Bool) (env : String → AnalysisResult)
    (image_files : List String) : List Event :=
  filterTrace modelLoaded env image_files ++
    (if ((filterLoop modelLoaded env image_files).1).isEmpty then []
     else [Event.packageEv])

/-- True when the event is a count computation. -/
def isCountEv : Event → Bool
  | Event.countEv _ _ => true
  | Event.deleteEv _ => false
  | Event.packageEv => false

/-- Checks the ordering stated by the claim: once any deletion has
occurred, no further detection count is computed. -/
def noCountAfterDelete : List Event → Bool
  | [] => true
  | Event.deleteEv _ :: rest => rest.all fun e => ! isCountEv e
  | Event.countEv _ _ :: rest => noCountAfterDelete rest
  | Event.packageEv :: rest => noCountAfterDelete rest

/-- Checks that every deletion in the trace is of a file whose count was
computed earlier in the trace; `counted` accumulates counted filenames. -/
def countedBeforeDeleted (counted : List String) : List Event → Bool
  | [] => true
  | Event.countEv f _ :: rest => countedBeforeDeleted (f :: counted) rest
  | Event.deleteEv f :: rest => decide (f ∈ counted) && countedBeforeDeleted counted rest
  | Event.packageEv :: rest => countedBeforeDeleted counted rest

/-- True when no deletion event occurs in the list. -/
def noDeleteEv : List Event → Bool
  | [] => true
  | Event.deleteEv _ :: _ => false
  | Event.countEv _ _ :: rest => noDeleteEv rest
  | Event.packageEv :: rest => noDeleteEv rest

/-- Checks that no deletion happens at or after the first packaging event. -/
def deletesPrecedePackaging : List Event → Bool
  | [] => true
  | Event.packageEv :: rest => noDeleteEv rest
  | Event.countEv _ _ :: rest => deletesPrecedePackaging rest
  | Event.deleteEv _ :: rest => deletesPrecedePackaging rest

/-! ### Spec-side definitions for refinement comparison

These two follow the words of the spec input contract (`min_persons`
default 3, `max_persons` default 15, caller-supplied); the code above
never reads those request fields. -/

/-- Modelled from the spec input contract: the filter lower bound the
caller supplied, default 3. -/
def specMinPersons (req : CrawlRequest) : Nat := req.min_persons.getD 3

/-- Modelled from the spec input contract: the filter upper bound the
caller supplied, default 15. -/
def specMaxPersons (req : CrawlRequest) : Nat := req.max_persons.getD 15

/-! ### Concrete inputs used by counterexamples and witnesses -/

/-- Concrete valid request with no caller range fields. -/
def reqCats : CrawlRequest := CrawlRequest.mk (some "cats") 10 none none

/-- Concrete request where the caller supplies `min_persons = 5`. -/
def req5 : CrawlRequest := CrawlRequest.mk (some "cats") 10 (some 5) (some 15)

/-- Detector environment: every image analyses to 0 persons. -/
def env0 : String → AnalysisResult := fun _ => AnalysisResult.ok 0

/-- Detector environment: every image analyses to 4 persons. -/
def env4 : String → AnalysisResult := fun _ => AnalysisResult.ok 4

/-- Detector environment: every image analyses to 10 persons. -/
def env10 : String → AnalysisResult := fun _ => AnalysisResult.ok 10

/-- Detector environment: every analysis raises. -/
def envErr : String → AnalysisResult := fun _ => AnalysisResult.err

/-- Detector environment: `f1` analyses to 0 persons, everything else to 5. -/
def env05 : String → AnalysisResult :=
  fun f => if f = "f1" then AnalysisResult.ok 0 else AnalysisResult.ok 5

/-! ### Helper lemmas about the detector and the filter loop -/

/-- With the model missing, `count_persons_in_image` returns 0. -/
theorem count_persons_of_model_none (env : String → AnalysisResult) (p : String) :
    count_persons_in_image false env p = 0 := rfl

/-- When analysis raises, `count_persons_in_image` returns 0 whatever the
model state is. -/
theorem count_persons_of_err (modelLoaded : Bool) (env : String → AnalysisResult)
    (p : String) (h : env p = AnalysisResult.err) :
    count_persons_in_image modelLoaded env p = 0 := by
  cases modelLoaded <;> simp [count_persons_in_image, h]

/-- Membership in `valid_images`: exactly the enumerated files whose count
lies in the closed range. -/
theorem mem_filterLoop_keep (modelLoaded : Bool) (env : String → AnalysisResult)
    (files : List String) (f : String) :
    f ∈ (filterLoop modelLoaded env files).1 ↔
      f ∈ files ∧ MIN_PERSONS ≤ count_persons_in_image modelLoaded env f ∧
        count_persons_in_image modelLoaded env f ≤ MAX_PERSONS := by
  induction files with
  | nil => simp [filterLoop]
  | cons g rest ih =>
    by_cases h : MIN_PERSONS ≤ count_persons_in_image modelLoaded env g ∧
        count_persons_in_image modelLoaded env g ≤ MAX_PERSONS
    · simp only [filterLoop, if_pos h, List.mem_cons, ih]
      constructor
      · rintro (rfl | ⟨hm, hp⟩)
        · exact ⟨Or.inl rfl, h⟩
        · exact ⟨Or.inr hm, hp⟩
      · rintro ⟨rfl | hm, hp⟩
        · exact Or.inl rfl
        · exact Or.inr ⟨hm, hp⟩
    · simp only [filterLoop, if_neg h, List.mem_cons, ih]
      constructor
      · rintro ⟨hm, hp⟩
        exact ⟨Or.inr hm, hp⟩
      · rintro ⟨rfl | hm, hp⟩
        · exact absurd hp h
        · exact ⟨hm, hp⟩

/-- Membership in the removed files: exactly the enumerated files whose
count lies outside the closed range. -/
theorem mem_filterLoop_discard (modelLoaded : Bool) (env : String → AnalysisResult)
    (files : List String) (f : String) :
    f ∈ (filterLoop modelLoaded env files).2 ↔
      f ∈ files ∧ ¬ (MIN_PERSONS ≤ count_persons_in_image modelLoaded env f ∧
        count_persons_in_image modelLoaded env f ≤ MAX_PERSONS) := by
  induction files with
  | nil => simp [filterLoop]
  | cons g rest ih =>
    by_cases h : MIN_PERSONS ≤ count_persons_in_image modelLoaded env g ∧
        count_persons_in_image modelLoaded env g ≤ MAX_PERSONS
    · simp only [filterLoop, if_pos h, List.mem_cons, ih]
      constructor
      · rintro ⟨hm, hp⟩
        exact ⟨Or.inr hm, hp⟩
      · rintro ⟨rfl | hm, hp⟩
        · exact absurd h hp
        · exact ⟨hm, hp⟩
    · simp only [filterLoop, if_neg h, List.mem_cons, ih]
      constructor
      · rintro (rfl | ⟨hm, hp⟩)
        · exact ⟨Or.inl rfl, h⟩
        · exact ⟨Or.inr hm, hp⟩
      · rintro ⟨rfl | hm, hp⟩
        · exact Or.inl rfl
        · exact Or.inr ⟨hm, hp⟩

/-- Every enumerated file gets exactly one disposition: the two output
lists of the filter loop together have the length of the input. -/
theorem filterLoop_length (modelLoaded : Bool) (env : String → AnalysisResult)
    (files : List String) :
    (filterLoop modelLoaded env files).1.length +
      (filterLoop modelLoaded env files).2.length = files.length := by
  induction files with
  | nil => simp [filterLoop]
  | cons g rest ih =>
    by_cases h : MIN_PERSONS ≤ count_persons_in_image modelLoaded env g ∧
        count_persons_in_image modelLoaded env g ≤ MAX_PERSONS
    · simp only [filterLoop, if_pos h, List.length_cons]
      omega
    · simp only [filterLoop, if_neg h, List.length_cons]
      omega

/-- With the model missing every count is 0, which is below
`MIN_PERSONS = 3`, so the loop keeps nothing and removes every file. -/
theorem filterLoop_model_none (env : String → AnalysisResult) (files : List String) :
    filterLoop false env files = ([], files) := by
  induction files with
  | nil => rfl
  | cons g rest ih =>
    have h : ¬ (MIN_PERSONS ≤ count_persons_in_image false env g ∧
        count_persons_in_image false env g ≤ MAX_PERSONS) := by
      rw [count_persons_of_model_none]
      decide
    simp [filterLoop, if_neg h, ih]

/-- The arcnames written into the zip are exactly `valid_images`. -/
theorem zipEntriesOf_map_arcname (session_id : String) (l : List String) :
    (zipEntriesOf session_id l).map ZipEntry.arcname = l := by
  induction l with
  | nil => rfl
  | cons g rest ih =>
    simp only [zipEntriesOf, List.map_cons] at ih ⊢
    rw [ih]

/-- Each zip entry stores a bare filename from `valid_images` and reads it
from the session directory. -/
theorem zipEntriesOf_mem (session_id : String) (l : List String) :
    ∀ e ∈ zipEntriesOf session_id l,
      e.arcname ∈ l ∧ e.sourcePath = pathJoin (savePath session_id) e.arcname := by
  intro e he
  simp only [zipEntriesOf, List.mem_map] at he
  obtain ⟨f, hf, rfl⟩ := he
  exact ⟨hf, rfl⟩

/-! ### Helper lemmas about the `/crawl` handler on validated requests -/

/-- With a valid keyword, the kept files are the first output of the
filter loop. -/
theorem crawl_keptFiles_eq (modelLoaded : Bool) (env : String → AnalysisResult)
    (session_id : String) (req : CrawlRequest) (files : List String)
    (h : keywordMissing req.keyword = false) :
    (crawl modelLoaded env session_id req files).keptFiles =
      (filterLoop modelLoaded env files).1 := by
  cases hk : (filterLoop modelLoaded env files).1 <;> simp [crawl, h, hk]

/-- With a valid keyword, the deleted files are the second output of the
filter loop. -/
theorem crawl_deletedFiles_eq (modelLoaded : Bool) (env : String → AnalysisResult)
    (session_id : String) (req : CrawlRequest) (files : List String)
    (h : keywordMissing req.keyword = false) :
    (crawl modelLoaded env session_id req files).deletedFiles =
      (filterLoop modelLoaded env files).2 := by
  cases hk : (filterLoop modelLoaded env files).1 <;> simp [crawl, h, hk]

/-- With a valid keyword, both branches return a 200 success payload. -/
theorem crawl_status_success (modelLoaded : Bool) (env : String → AnalysisResult)
    (session_id : String) (req : CrawlRequest) (files : List String)
    (h : keywordMissing req.keyword = false) :
    (crawl modelLoaded env session_id req files).status = "success" ∧
      (crawl modelLoaded env session_id req files).httpStatus = 200 := by
  cases hk : (filterLoop modelLoaded env files).1 <;> simp [crawl, h, hk]

/-! ### Helper lemmas about the event trace -/

/-- `countedBeforeDeleted` is monotone in the set of already-counted
filenames. -/
theorem countedBeforeDeleted_mono (l : List Event) :
    ∀ c d : List String, (∀ x, x ∈ c → x ∈ d) →
      countedBeforeDeleted c l = true → countedBeforeDeleted d l = true := by
  induction l with
  | nil => intro c d _ _; rfl
  | cons e rest ih =>
    intro c d hsub h
    cases e with
    | countEv f n =>
      simp only [countedBeforeDeleted] at h ⊢
      refine ih (f :: c) (f :: d) ?_ h
      intro x hx
      rcases List.mem_cons.mp hx with rfl | hx
      · exact List.mem_cons_self x d
      · exact List.mem_cons_of_mem f (hsub x hx)
    | deleteEv f =>
      simp only [countedBeforeDeleted, Bool.and_eq_true, decide_eq_true_eq] at h ⊢
      exact ⟨hsub f h.1, ih c d hsub h.2⟩
    | packageEv =>
      simp only [countedBeforeDeleted] at h ⊢
      exact ih c d hsub h

/-- Along the filter-loop trace, every deletion is of a file counted
earlier in the trace, whatever already-counted set and continuation
follow. -/
theorem countedBeforeDeleted_filterTrace (modelLoaded : Bool)
    (env : String → AnalysisResult) (files : List String) :
    ∀ (counted : List String) (tail : List Event),
      countedBeforeDeleted counted tail = true →
      countedBeforeDeleted counted (filterTrace modelLoaded env files ++ tail) = true := by
  induction files with
  | nil => intro c t h; simpa [filterTrace] using h
  | cons g rest ih =>
    intro c t h
    have hmono : countedBeforeDeleted (g :: c) t = true :=
      countedBeforeDeleted_mono t c (g :: c) (fun x hx => List.mem_cons_of_mem g hx) h
    by_cases hg : MIN_PERSONS ≤ count_persons_in_image modelLoaded env g ∧
        count_persons_in_image modelLoaded env g ≤ MAX_PERSONS
    · simp only [filterTrace, if_pos hg, List.cons_append, countedBeforeDeleted]
      exact ih (g :: c) t hmono
    · simp only [filterTrace, if_neg hg, List.cons_append, countedBeforeDeleted,
        Bool.and_eq_true, decide_eq_true_eq]
      exact ⟨List.mem_cons_self g c, ih (g :: c) t hmono⟩

/-- The filter-loop trace contains no packaging event, so the
deletions-before-packaging check only inspects what follows it. -/
theorem deletesPrecedePackaging_filterTrace (modelLoaded : Bool)
    (env : String → AnalysisResult) (files : List String) (suffix : List Event) :
    deletesPrecedePackaging (filterTrace modelLoaded env files ++ suffix) =
      deletesPrecedePackaging suffix := by
  induction files with
  | nil => simp [filterTrace]
  | cons g rest ih =>
    by_cases hg : MIN_PERSONS ≤ count_persons_in_image modelLoaded env g ∧
        count_persons_in_image modelLoaded env g ≤ MAX_PERSONS
    · simp only [filterTrace, if_pos hg, List.cons_append, deletesPrecedePackaging]
      exact ih
    · simp only [filterTrace, if_neg hg, List.cons_append, deletesPrecedePackaging]
      exact ih

/-! ### Claim C1: degraded mode (model unavailable) -/

/-- Claim C1 counterexample: with the model unavailable, the single
acquired file is deleted and nothing is kept, contradicting the claim
that in degraded mode every item is kept and no deletions occur. -/
theorem crawl_model_unavailable_cx :
    (crawl false env0 "s2" reqCats ["b.jpg"]).deletedFiles ≠ [] ∧
      "b.jpg" ∉ (crawl false env0 "s2" reqCats ["b.jpg"]).keptFiles := by
  decide

/-- Claim C1 (corrected): when the Detector is unavailable every count is
the overloaded 0, which lies below the hardcoded `MIN_PERSONS = 3`, so on
a validated request every acquired item is discarded and its file deleted;
none passes through. -/
theorem crawl_model_unavailable_deletes_all (env : String → AnalysisResult)
    (session_id : String) (req : CrawlRequest) (files : List String)
    (h : keywordMissing req.keyword = false) :
    (crawl false env session_id req files).keptFiles = [] ∧
      (crawl false env session_id req files).deletedFiles = files := by
  rw [crawl_keptFiles_eq false env session_id req files h,
    crawl_deletedFiles_eq false env session_id req files h,
    filterLoop_model_none env files]
  exact ⟨rfl, rfl⟩

/-- Claim C1 witness: the corrected statement at a concrete input. -/
theorem crawl_model_unavailable_witness :
    (crawl false env0 "s1" reqCats ["a.jpg"]).keptFiles = [] ∧
      (crawl false env0 "s1" reqCats ["a.jpg"]).deletedFiles = ["a.jpg"] :=
  crawl_model_unavailable_deletes_all env0 "s1" reqCats ["a.jpg"] (by decide)

/-! ### Claim C2: caller-supplied filter range -/

/-- Claim C2 counterexample: the caller supplies `min_persons = 5`, the
image analyses to 4 persons, yet the pipeline keeps it (the hardcoded
bound 3 is used), so the pipeline does not filter with the caller range. -/
theorem crawl_caller_range_cx :
    (crawl true env4 "s1" req5 ["a.jpg"]).keptFiles = ["a.jpg"] ∧
      ¬ specMinPersons req5 ≤ count_persons_in_image true env4 "a.jpg" := by
  decide

/-- Claim C2 (corrected): the outcome is independent of the request
fields `min_persons` and `max_persons` (the handler never reads them),
and on a validated request filtering always uses the hardcoded constants
`MIN_PERSONS = 3` and `MAX_PERSONS = 15`. -/
theorem crawl_uses_fixed_range (modelLoaded : Bool) (env : String → AnalysisResult)
    (session_id : String) (kw : Option String) (mn : Nat) (mp mx : Option Nat)
    (files : List String) :
    (crawl modelLoaded env session_id (CrawlRequest.mk kw mn mp mx) files =
      crawl modelLoaded env session_id (CrawlRequest.mk kw mn none none) files)
  ∧ (keywordMissing kw = false →
      ∀ f, f ∈ (crawl modelLoaded env session_id (CrawlRequest.mk kw mn mp mx) files).keptFiles ↔
        f ∈ files ∧ MIN_PERSONS ≤ count_persons_in_image modelLoaded env f ∧
          count_persons_in_image modelLoaded env f ≤ MAX_PERSONS) := by
  refine ⟨rfl, fun h f => ?_⟩
  rw [crawl_keptFiles_eq modelLoaded env session_id (CrawlRequest.mk kw mn mp mx) files h]
  exact mem_filterLoop_keep modelLoaded env files f

/-- Claim C2 witness: the corrected statement at a concrete input. -/
theorem crawl_uses_fixed_range_witness :
    (crawl true env4 "s1" (CrawlRequest.mk (some "cats") 10 (some 5) (some 15)) ["a.jpg"] =
      crawl true env4 "s1" (CrawlRequest.mk (some "cats") 10 none none) ["a.jpg"])
  ∧ ("a.jpg" ∈ (crawl true env4 "s1"
        (CrawlRequest.mk (some "cats") 10 (some 5) (some 15)) ["a.jpg"]).keptFiles ↔
      "a.jpg" ∈ ["a.jpg"] ∧ MIN_PERSONS ≤ count_persons_in_image true env4 "a.jpg" ∧
        count_persons_in_image true env4 "a.jpg" ≤ MAX_PERSONS) :=
  ⟨(crawl_uses_fixed_range true env4 "s1" (some "cats") 10 (some 5) (some 15) ["a.jpg"]).1,
    (crawl_uses_fixed_range true env4 "s1" (some "cats") 10 (some 5) (some 15) ["a.jpg"]).2
      (by decide) "a.jpg"⟩

/-! ### Claim C3: behaviour when detection raises -/

/-- Claim C3 counterexample: when analysis raises on the only image, the
run still returns a 200 success payload and the file is deleted,
contradicting the claimed abort with no deletions. -/
theorem crawl_detection_error_cx :
    (crawl true envErr "s1" reqCats ["a.jpg"]).status = "success"
  ∧ (crawl true envErr "s1" reqCats ["a.jpg"]).httpStatus = 200
  ∧ (crawl true envErr "s1" reqCats ["a.jpg"]).deletedFiles = ["a.jpg"] := by
  decide

/-- Claim C3 (corrected): a detection exception is caught per image and
yields count 0; the run never aborts because of it (the validated run
always returns a 200 success payload), and each image whose analysis
raised is deleted, since 0 lies outside the range `[3, 15]`. -/
theorem crawl_detection_error_swallowed (modelLoaded : Bool)
    (env : String → AnalysisResult) (session_id : String) (req : CrawlRequest)
    (files : List String) (h : keywordMissing req.keyword = false) :
    (crawl modelLoaded env session_id req files).status = "success"
  ∧ (crawl modelLoaded env session_id req files).httpStatus = 200
  ∧ ∀ f ∈ files, env f = AnalysisResult.err →
      f ∈ (crawl modelLoaded env session_id req files).deletedFiles := by
  refine ⟨(crawl_status_success modelLoaded env session_id req files h).1,
    (crawl_status_success modelLoaded env session_id req files h).2, ?_⟩
  intro f hf herr
  rw [crawl_deletedFiles_eq modelLoaded env session_id req files h,
    mem_filterLoop_discard]
  refine ⟨hf, ?_⟩
  rw [count_persons_of_err modelLoaded env f herr]
  decide

/-- Claim C3 witness: the corrected statement at a concrete input. -/
theorem crawl_detection_error_witness :
    (crawl true envErr "s4" reqCats ["d.jpg"]).status = "success"
  ∧ (crawl true envErr "s4" reqCats ["d.jpg"]).httpStatus = 200
  ∧ "d.jpg" ∈ (crawl true envErr "s4" reqCats ["d.jpg"]).deletedFiles := by
  have h := crawl_detection_error_swallowed true envErr "s4" reqCats ["d.jpg"] (by decide)
  exact ⟨h.1, h.2.1, h.2.2 "d.jpg" (by simp) rfl⟩

/-! ### Claim C4: closed inclusive range partition -/

/-- Claim C4 (confirmed): on a validated request, an enumerated file is
kept iff its detection count lies in the closed range
`[MIN_PERSONS, MAX_PERSONS]` (both ends inclusive), and its file is
removed iff the count lies outside that closed range; the partition is a
pure function of the counts and the range. -/
theorem crawl_partition_closed_range (modelLoaded : Bool)
    (env : String → AnalysisResult) (session_id : String) (req : CrawlRequest)
    (files : List String) (h : keywordMissing req.keyword = false) (f : String) :
    (f ∈ (crawl modelLoaded env session_id req files).keptFiles ↔
      f ∈ files ∧ MIN_PERSONS ≤ count_persons_in_image modelLoaded env f ∧
        count_persons_in_image modelLoaded env f ≤ MAX_PERSONS)
  ∧ (f ∈ (crawl modelLoaded env session_id req files).deletedFiles ↔
      f ∈ files ∧ ¬ (MIN_PERSONS ≤ count_persons_in_image modelLoaded env f ∧
        count_persons_in_image modelLoaded env f ≤ MAX_PERSONS)) := by
  rw [crawl_keptFiles_eq modelLoaded env session_id req files h,
    crawl_deletedFiles_eq modelLoaded env session_id req files h]
  exact ⟨mem_filterLoop_keep modelLoaded env files f,
    mem_filterLoop_discard modelLoaded env files f⟩

/-- Claim C4 witness: the partition statement at a concrete input. -/
theorem crawl_partition_witness :
    ("a.jpg" ∈ (crawl true env10 "s1" reqCats ["a.jpg"]).keptFiles ↔
      "a.jpg" ∈ ["a.jpg"] ∧ MIN_PERSONS ≤ count_persons_in_image true env10 "a.jpg" ∧
        count_persons_in_image true env10 "a.jpg" ≤ MAX_PERSONS)
  ∧ ("a.jpg" ∈ (crawl true env10 "s1" reqCats ["a.jpg"]).deletedFiles ↔
      "a.jpg" ∈ ["a.jpg"] ∧ ¬ (MIN_PERSONS ≤ count_persons_in_image true env10 "a.jpg" ∧
        count_persons_in_image true env10 "a.jpg" ≤ MAX_PERSONS)) :=
  crawl_partition_closed_range true env10 "s1" reqCats ["a.jpg"] (by decide) "a.jpg"

/-! ### Claim C5: response shape -/

/-- Claim C5 counterexample: a successful run with a kept item produces a
payload whose keys do not include `imageUrls`, contradicting the claimed
response shape `(status, message, imageUrls, downloadUrl)`. -/
theorem crawl_payload_keys_cx :
    (crawl true env10 "s1" reqCats ["a.jpg"]).keptFiles ≠ []
  ∧ "imageUrls" ∉ (crawl true env10 "s1" reqCats ["a.jpg"]).payloadKeys := by
  decide

/-- Claim C5 (corrected): on a validated request, the payload keys are
exactly `status`, `message`, `downloadUrl` (there is no `imageUrls`
field), and `downloadUrl` is null iff no item survived filtering. -/
theorem crawl_success_payload_keys (modelLoaded : Bool)
    (env : String → AnalysisResult) (session_id : String) (req : CrawlRequest)
    (files : List String) (h : keywordMissing req.keyword = false) :
    (crawl modelLoaded env session_id req files).payloadKeys =
      ["status", "message", "downloadUrl"]
  ∧ ((crawl modelLoaded env session_id req files).downloadUrl = none ↔
      (crawl modelLoaded env session_id req files).keptFiles = []) := by
  cases hk : (filterLoop modelLoaded env files).1 <;> simp [crawl, h, hk]

/-- Claim C5 witness: the corrected statement at a concrete input. -/
theorem crawl_success_payload_witness :
    (crawl true env10 "s5" reqCats ["e.jpg"]).payloadKeys =
      ["status", "message", "downloadUrl"]
  ∧ ((crawl true env10 "s5" reqCats ["e.jpg"]).downloadUrl = none ↔
      (crawl true env10 "s5" reqCats ["e.jpg"]).keptFiles = []) :=
  crawl_success_payload_keys true env10 "s5" reqCats ["e.jpg"] (by decide)

/-! ### Claim C6: archive exactly the keep set, only when nonempty -/

/-- Claim C6 (confirmed): on a validated request no archive is written
iff the keep set is empty, and any written archive stores exactly the
kept filenames, flat: each entry arcname is a bare kept filename and its
source path is that filename joined under the session directory. -/
theorem crawl_archive_iff_and_exact (modelLoaded : Bool)
    (env : String → AnalysisResult) (session_id : String) (req : CrawlRequest)
    (files : List String) (h : keywordMissing req.keyword = false) :
    ((crawl modelLoaded env session_id req files).archive = none ↔
      (crawl modelLoaded env session_id req files).keptFiles = [])
  ∧ ∀ a, (crawl modelLoaded env session_id req files).archive = some a →
      a.entries.map ZipEntry.arcname =
        (crawl modelLoaded env session_id req files).keptFiles
      ∧ ∀ e ∈ a.entries,
          e.arcname ∈ (crawl modelLoaded env session_id req files).keptFiles
          ∧ e.sourcePath = pathJoin (savePath session_id) e.arcname := by
  cases hk : (filterLoop modelLoaded env files).1 with
  | nil =>
    refine ⟨by simp [crawl, h, hk], ?_⟩
    intro a ha
    simp [crawl, h, hk] at ha
  | cons x xs =>
    refine ⟨by simp [crawl, h, hk], ?_⟩
    intro a ha
    have hkept : (crawl modelLoaded env session_id req files).keptFiles = x :: xs := by
      rw [crawl_keptFiles_eq modelLoaded env session_id req files h, hk]
    have harch : (crawl modelLoaded env session_id req files).archive =
        some (Archive.mk (zipFilename session_id (req.keyword.getD ""))
          (pathJoin ZIP_FOLDER (zipFilename session_id (req.keyword.getD "")))
          (zipEntriesOf session_id (x :: xs))) := by
      simp [crawl, h, hk]
    rw [harch] at ha
    obtain rfl := (Option.some_inj.mp ha).symm
    rw [hkept]
    exact ⟨zipEntriesOf_map_arcname session_id (x :: xs),
      zipEntriesOf_mem session_id (x :: xs)⟩

/-- Concrete archive value produced by the C6 witness run. -/
def archS6 : Archive :=
  Archive.mk "s6_cats.zip" "zips/s6_cats.zip" [ZipEntry.mk "downloads/s6/g.jpg" "g.jpg"]

/-- Claim C6 witness: the statement at a concrete input, with the inner
hypothesis discharged at the concrete archive. -/
theorem crawl_archive_witness :
    ((crawl true env10 "s6" reqCats ["g.jpg"]).archive = none ↔
      (crawl true env10 "s6" reqCats ["g.jpg"]).keptFiles = [])
  ∧ archS6.entries.map ZipEntry.arcname =
      (crawl true env10 "s6" reqCats ["g.jpg"]).keptFiles := by
  have h := crawl_archive_iff_and_exact true env10 "s6" reqCats ["g.jpg"] (by decide)
  exact ⟨h.1, (h.2 archS6 (by decide)).1⟩

/-! ### Claim C7: archive filename and download locator -/

/-- Claim C7 counterexample: the returned locator starts with
`/download/`, not `/download_zip/`: at a concrete successful run the two
locator forms differ as strings. -/
theorem crawl_download_locator_cx :
    (crawl true env10 "s3" reqCats ["c.jpg"]).downloadUrl =
      some "/download/s3_cats.zip"
  ∧ "/download/s3_cats.zip" ≠ "/download_zip/" ++ "s3_cats.zip" := by
  decide

/-- Claim C7 (corrected): any archive written by a validated request is
named `sessionId_keywordWithSpacesReplaced.zip` (that part of the claim
holds), but the returned locator is `/download/` followed by the archive
filename, and the `/download/<filename>` route serves that file from the
zip folder as an attachment. -/
theorem crawl_archive_name_and_locator (modelLoaded : Bool)
    (env : String → AnalysisResult) (session_id kw : String) (req : CrawlRequest)
    (files : List String) (hkw : req.keyword = some kw)
    (h : keywordMissing req.keyword = false) :
    ∀ a, (crawl modelLoaded env session_id req files).archive = some a →
      a.name = session_id ++ "_" ++ pyReplaceSpace kw ++ ".zip"
      ∧ (crawl modelLoaded env session_id req files).downloadUrl =
          some ("/download/" ++ a.name)
      ∧ download_zip a.name = DownloadResponse.mk ZIP_FOLDER a.name true := by
  intro a ha
  cases hk : (filterLoop modelLoaded env files).1 with
  | nil => simp [crawl, h, hk] at ha
  | cons x xs =>
    have harch : (crawl modelLoaded env session_id req files).archive =
        some (Archive.mk (zipFilename session_id (req.keyword.getD ""))
          (pathJoin ZIP_FOLDER (zipFilename session_id (req.keyword.getD "")))
          (zipEntriesOf session_id (x :: xs))) := by
      simp [crawl, h, hk]
    rw [harch] at ha
    obtain rfl := (Option.some_inj.mp ha).symm
    refine ⟨?_, ?_, rfl⟩
    · simp [hkw, zipFilename]
    · simp [crawl, h, hk]

/-- Concrete archive value produced by the C7 witness run. -/
def archS7 : Archive :=
  Archive.mk "s7_cats.zip" "zips/s7_cats.zip" [ZipEntry.mk "downloads/s7/h.jpg" "h.jpg"]

/-- Claim C7 witness: the corrected statement at a concrete input, with
the inner hypothesis discharged at the concrete archive. -/
theorem crawl_locator_witness :
    archS7.name = "s7" ++ "_" ++ pyReplaceSpace "cats" ++ ".zip"
  ∧ (crawl true env10 "s7" reqCats ["h.jpg"]).downloadUrl =
      some ("/download/" ++ archS7.name)
  ∧ download_zip archS7.name = DownloadResponse.mk ZIP_FOLDER archS7.name true :=
  crawl_archive_name_and_locator true env10 "s7" "cats" reqCats ["h.jpg"] rfl
    (by decide) archS7 (by decide)

/-! ### Claim C8: disposition totality -/

/-- Claim C8 (confirmed): on a validated request, the number of kept
files plus the number of deleted files equals the number of enumerated
files: each gets exactly one terminal disposition. -/
theorem crawl_disposition_total (modelLoaded : Bool)
    (env : String → AnalysisResult) (session_id : String) (req : CrawlRequest)
    (files : List String) (h : keywordMissing req.keyword = false) :
    (crawl modelLoaded env session_id req files).keptFiles.length +
      (crawl modelLoaded env session_id req files).deletedFiles.length =
        files.length := by
  rw [crawl_keptFiles_eq modelLoaded env session_id req files h,
    crawl_deletedFiles_eq modelLoaded env session_id req files h]
  exact filterLoop_length modelLoaded env files

/-- Claim C8 witness: the statement at a concrete input. -/
theorem crawl_disposition_witness :
    (crawl true env05 "s8" reqCats ["f1", "f2"]).keptFiles.length +
      (crawl true env05 "s8" reqCats ["f1", "f2"]).deletedFiles.length = 2 :=
  crawl_disposition_total true env05 "s8" reqCats ["f1", "f2"] (by decide)

/-! ### Claim C9: stage ordering -/

/-- Claim C9 counterexample: the loop interleaves detection and deletion:
in the concrete trace, `f1` is deleted before the count of `f2` is
computed, so it is false that every count is computed before any deletion
occurs. -/
theorem crawl_ordering_cx :
    crawlTrace true env05 ["f1", "f2"] =
      [Event.countEv "f1" 0, Event.deleteEv "f1", Event.countEv "f2" 5,
        Event.packageEv]
  ∧ noCountAfterDelete (crawlTrace true env05 ["f1", "f2"]) = false := by
  decide

/-- Claim C9 (corrected): the per-run ordering that does hold: every
deletion in the trace is of a file whose count was computed earlier in
the trace (detection and deletion are interleaved per item), and all
deletions occur before packaging begins. -/
theorem crawlTrace_ordering (modelLoaded : Bool) (env : String → AnalysisResult)
    (files : List String) :
    countedBeforeDeleted [] (crawlTrace modelLoaded env files) = true
  ∧ deletesPrecedePackaging (crawlTrace modelLoaded env files) = true := by
  constructor
  · unfold crawlTrace
    refine countedBeforeDeleted_filterTrace modelLoaded env files [] _ ?_
    by_cases hk : ((filterLoop modelLoaded env files).1).isEmpty <;>
      simp [hk, countedBeforeDeleted]
  · unfold crawlTrace
    rw [deletesPrecedePackaging_filterTrace]
    by_cases hk : ((filterLoop modelLoaded env files).1).isEmpty <;>
      simp [hk, deletesPrecedePackaging, noDeleteEv]

/-! ### Claim C10: totality and zero-conflation of the per-image counter -/

/-- Claim C10 (confirmed): `count_persons_in_image` always returns a
natural number (it is a total function into `Nat` and propagates no
exception in the embedding, matching the bare `except` in the source):
it returns 0 when the model is unavailable, 0 when analysis of the image
raises, and the detected count otherwise — so a return value of 0 cannot
distinguish zero persons detected, analysis failure, and missing model. -/
theorem count_persons_total_conflation (modelLoaded : Bool)
    (env : String → AnalysisResult) (p : String) :
    (modelLoaded = false → count_persons_in_image modelLoaded env p = 0)
  ∧ (env p = AnalysisResult.err → count_persons_in_image modelLoaded env p = 0)
  ∧ ∀ n, env p = AnalysisResult.ok n → modelLoaded = true →
      count_persons_in_image modelLoaded env p = n := by
  refine ⟨?_, ?_, ?_⟩
  · rintro rfl
    rfl
  · intro h
    exact count_persons_of_err modelLoaded env p h
  · intro n h hm
    subst hm
    simp [count_persons_in_image, h]

/-- Claim C10 witness: the three zero-conflated situations and the normal
case at concrete inputs. -/
theorem count_persons_witness :
    count_persons_in_image false env0 "a.jpg" = 0
  ∧ count_persons_in_image true envErr "a.jpg" = 0
  ∧ count_persons_in_image true env10 "a.jpg" = 10 :=
  ⟨(count_persons_total_conflation false env0 "a.jpg").1 rfl,
    (count_persons_total_conflation true envErr "a.jpg").2.1 rfl,
    (count_persons_total_conflation true env10 "a.jpg").2.2 10 rfl rfl⟩

end AIGazou
